import Mathlib

/-!
Verification of the zabbix_agent trapper-protocol codec and transport client.

The development shallowly embeds the Go sources:
- `DataSender` (src/unnamed/part_000 = src/unnamed/part_001, which differ only
  in the language of their message strings; part_000's English messages are
  used): frame construction, TCP lifecycle, response validation and payload
  extraction.
- `Config` (src/src/conf.go): configuration loading that aborts the run on a
  read/parse failure.
- The JSON data model (src/pkg/structDefine.go) and the concrete batch built
  by `activeCheck` (src/src/conf.go, second file part), marshalled with the
  semantics of Go's encoding/json for these struct shapes.

Go strings and byte slices are modelled as `List Nat` of byte values; machine
integers as `Nat`/`Int` with explicit reduction mod 2^64 where Go converts to
uint64. External effects (TCP dial/write/read outcomes, the bytes accumulated
from the peer, the toml parse outcome) are supplied by an oracle record, and a
run of `DataSender` is the list of network events it performs together with
its outcome (a returned (string, error) pair, or a run-aborting panic).
-/

/-- Byte values of an ASCII string literal, as Go's `[]byte(s)` for ASCII
content. -/
def ascii (s : String) : List Nat := s.data.map Char.toNat

/-- Go's `binary.LittleEndian.PutUint64`: the 8 bytes of `v`, least
significant first (`byteBuff[i] = byte(v >> (8*i))`). The argument is a
uint64 value (reduced mod 2^64 by `toUint64` at the call site). -/
def putUint64LE (v : Nat) : List Nat :=
  (List.range 8).map (fun i => v / 2 ^ (8 * i) % 256)

/-- Interpretation of a byte list as a little-endian unsigned integer (the
reading the spec assigns to the 8 bytes at offset 5). -/
def getUintLE : List Nat → Nat
  | [] => 0
  | b :: bs => b + 256 * getUintLE bs

/-- Go's conversion `uint64(x)` of a non-negative integer. -/
def toUint64 (x : Nat) : Nat := x % 2 ^ 64

/-- The fixed magic/version constant `[]byte("ZBXD\x01")` from DataSender
line 23. -/
def zbxHeader : List Nat := ascii "ZBXD\x01"

/-- A Go byte slice's backing buffer: its current contents together with its
capacity. Used to follow DataSender's `make`/`append` frame construction and
to record whether any append had to reallocate. -/
structure GoByteBuf where
  contents : List Nat
  cap : Nat
  deriving Repr, DecidableEq

/-- Go's `append` on a byte slice: if the appended bytes fit within the
capacity the backing buffer is reused (second component `false`), otherwise
a new larger backing array is allocated (second component `true`). -/
def goAppend (b : GoByteBuf) (xs : List Nat) : GoByteBuf × Bool :=
  if b.contents.length + xs.length ≤ b.cap then
    ({ contents := b.contents ++ xs, cap := b.cap }, false)
  else
    ({ contents := b.contents ++ xs, cap := b.contents.length + xs.length }, true)

/-- Frame construction from DataSender lines 23-31:
`msgArray := make([]byte, zbxHeaderLength+dataLength)[:0]` followed by three
appends (header, the 8-byte little-endian length, the payload). Returns the
final buffer and whether any append reallocated away from the backing array
created by `make`. -/
def dataSenderFrameTracked (data : List Nat) : GoByteBuf × Bool :=
  let zbxHeaderLength := zbxHeader.length + 8
  let dataLength := data.length
  let msgArray : GoByteBuf := { contents := [], cap := zbxHeaderLength + dataLength }
  let s1 := goAppend msgArray zbxHeader
  let byteBuff := putUint64LE (toUint64 dataLength)
  let s2 := goAppend s1.1 byteBuff
  let s3 := goAppend s2.1 data
  (s3.1, s1.2 || s2.2 || s3.2)

/-- The bytes DataSender writes to the connection (line 32). -/
def dataSenderFrame (data : List Nat) : List Nat :=
  (dataSenderFrameTracked data).1.contents

/-- Result of the response-validation step of DataSender (lines 49-53):
either the extracted payload with a nil error (`ok`), the fixed
invalid-header return (`invalidHeader`), or an out-of-range slice panic
(`fault`). -/
inductive DecodeResult
  | ok (payload : List Nat)
  | invalidHeader
  | fault
  deriving Repr, DecidableEq

/-- The five bytes `buf.Bytes()[:5]` compares at line 49. `bytes.Buffer`'s
`ReadFrom` (reached through `io.Copy`) always grows the freshly allocated
backing array to capacity at least 512 before the first read, so slicing the
returned slice up to index 5 never faults and reads zero bytes beyond the
accumulated length. -/
def bufFirst5 (resp : List Nat) : List Nat :=
  (resp ++ List.replicate 5 0).take 5

/-- DataSender's response handling, lines 49-53: compare `buf.Bytes()[:5]`
with the magic; on mismatch return the invalid-header message; otherwise
evaluate `string(buf.Bytes())[13:]`, which faults (slice bounds out of
range) when the accumulated response is shorter than 13 bytes and otherwise
yields everything from offset 13 on. -/
def dataSenderDecode (resp : List Nat) : DecodeResult :=
  if bufFirst5 resp ≠ zbxHeader then .invalidHeader
  else if resp.length < 13 then .fault
  else .ok (resp.drop 13)

/-- Server section of the toml configuration (src/pkg/structDefine.go
lines 34-38). -/
structure server where
  Ip : String
  Port : Int
  Version : String
  deriving Repr, DecidableEq

/-- Agent section of the toml configuration (src/pkg/structDefine.go
lines 40-44). -/
structure agent where
  Port : Int
  LogLevel : String
  Logfile : String
  deriving Repr, DecidableEq

/-- The toml configuration (src/pkg/structDefine.go lines 29-32). -/
structure tomlConfig where
  Server : server
  Agent : agent
  deriving Repr, DecidableEq

/-- Embeds `Config` (src/src/conf.go lines 16-24). The argument is the
outcome of the external `toml.DecodeFile` call (`none` = read/parse error).
On an error the function calls `log.Panic`, aborting the whole run, which
the embedding renders as `none`; otherwise the parsed configuration is
returned unchanged. -/
def Config (parsed : Option tomlConfig) : Option tomlConfig :=
  match parsed with
  | none => none
  | some c => some c

/-- One observable network action of DataSender. -/
inductive NetEvent
  | dialTcp (address : String)
  | connWrite (frame : List Nat)
  | connRead
  | connClose
  deriving Repr, DecidableEq

/-- Outcomes of the external effects DataSender performs, supplied as an
oracle: the toml parse result consumed by `Config`, and whether the dial,
the write and the read-to-close succeed. `response` is the byte sequence
`io.Copy` accumulates from the peer when the read succeeds. -/
structure NetOracle where
  parsedConf : Option tomlConfig
  dialOk : Bool
  writeOk : Bool
  readOk : Bool
  response : List Nat
  deriving Repr, DecidableEq

/-- The `(string, error)` pair DataSender returns: the bytes of the string
component and whether the error component is nil. -/
structure SendReturn where
  msg : List Nat
  errNil : Bool
  deriving Repr, DecidableEq

/-- How a DataSender call ends: a normal return or a run-aborting panic
(from `log.Panic` in `Config`, or a slice-bounds fault). -/
inductive SendOutcome
  | ret (r : SendReturn)
  | panicked
  deriving Repr, DecidableEq

/-- A run of DataSender: the network events performed, in order, and the
outcome. -/
structure SendRun where
  events : List NetEvent
  outcome : SendOutcome
  deriving Repr, DecidableEq

/-- Embeds `DataSender` (src/unnamed/part_000 lines 14-54) over the oracle
of external outcomes. Faithful points to note:
- `Config()` runs first (line 15); a parse failure panics before any network
  action, so the run ends with no events.
- The address is formed from the configuration (line 16) before dialing
  (line 19); a dial failure returns `("connect error:", err)` with no
  connection to close.
- The frame is built (lines 23-31) and written (line 32); on a write error
  the function returns at line 35 **before** the deferred close is installed
  (line 37), so no close event happens on that path.
- After the `defer`, the read (line 44), the header check (line 49) and the
  payload slice (line 53) all reach the deferred close, including the panic
  path (Go runs deferred calls while panicking). The invalid-header return
  at line 51 hands back the `err` value, which is nil at that point. -/
def dataSenderRun (data : List Nat) (o : NetOracle) : SendRun :=
  match Config o.parsedConf with
  | none => { events := [], outcome := .panicked }
  | some conf =>
    let address := conf.Server.Ip ++ ":" ++ toString conf.Server.Port
    if o.dialOk = false then
      { events := [.dialTcp address],
        outcome := .ret { msg := ascii "connect error:", errNil := false } }
    else
      let msgArray := dataSenderFrame data
      if o.writeOk = false then
        { events := [.dialTcp address, .connWrite msgArray],
          outcome := .ret { msg := ascii "send data error:", errNil := false } }
      else if o.readOk = false then
        { events := [.dialTcp address, .connWrite msgArray, .connRead, .connClose],
          outcome := .ret { msg := ascii "error data", errNil := false } }
      else
        match dataSenderDecode o.response with
        | .invalidHeader =>
          { events := [.dialTcp address, .connWrite msgArray, .connRead, .connClose],
            outcome := .ret { msg := ascii "zabbix server:Invalid data header",
                              errNil := true } }
        | .fault =>
          { events := [.dialTcp address, .connWrite msgArray, .connRead, .connClose],
            outcome := .panicked }
        | .ok payload =>
          { events := [.dialTcp address, .connWrite msgArray, .connRead, .connClose],
            outcome := .ret { msg := payload, errNil := true } }

/-- Whether a network event is a TCP dial. -/
def isDialEvent : NetEvent → Bool
  | .dialTcp _ => true
  | _ => false

/-- Lowercase hex digit byte for a value below 16 (as Go's encoding/json
uses in `\u00XX` escapes). -/
def hexDigitLower (n : Nat) : Nat := if n < 10 then 48 + n else 87 + n

/-- Escaping of one ASCII byte inside a JSON string, following Go's
encoding/json default encoder: `"` and `\` get a backslash escape; `<`, `>`
and `&` are HTML-escaped to `\u00XX`; control bytes become `\n`, `\r`, `\t`
or `\u00XX`; every other ASCII byte is emitted verbatim. (The program's
strings are all ASCII, which is the scope of this model.) -/
def escapeByte (b : Nat) : List Nat :=
  if b = 34 then [92, 34]
  else if b = 92 then [92, 92]
  else if b = 60 ∨ b = 62 ∨ b = 38 then
    [92, 117, 48, 48, hexDigitLower (b / 16), hexDigitLower (b % 16)]
  else if b < 32 then
    if b = 10 then [92, 110]
    else if b = 13 then [92, 114]
    else if b = 9 then [92, 116]
    else [92, 117, 48, 48, hexDigitLower (b / 16), hexDigitLower (b % 16)]
  else [b]

/-- JSON escaping of a byte sequence. -/
def jsonEscape (bs : List Nat) : List Nat :=
  bs.foldr (fun b acc => escapeByte b ++ acc) []

/-- A Go string marshalled as a JSON string: quote, escaped content,
quote. -/
def jsonString (s : String) : List Nat := 34 :: (jsonEscape (ascii s) ++ [34])

/-- A positive float64 value represented exactly: the value is
`m / 2 ^ d` with `2^52 ≤ m < 2^53` (a normal double written with its
integer significand). This covers the only float the program serializes
(the literal 99.87 in src/src/conf.go line 43). -/
structure GoFloat64 where
  m : Nat
  d : Nat
  deriving Repr, DecidableEq

/-- Rounding of the rational `a / b` to the nearest integer, ties to even
(IEEE-754 default rounding, used by Go when converting a decimal literal to
float64). -/
def roundNearestEven (a b : Nat) : Nat :=
  let q := a / b
  let r := a % b
  if 2 * r < b then q else if b < 2 * r then q + 1 else if q % 2 = 0 then q else q + 1

/-- Fuel-bounded search for the binary scale of `D / 10^k`: the first `d`
whose rounded significand lands in the normal-double range. -/
def float64OfDecimalAux (D k : Nat) : Nat → Nat → GoFloat64
  | _, 0 => { m := 0, d := 0 }
  | d, fuel + 1 =>
    let q := roundNearestEven (D * 2 ^ d) (10 ^ k)
    if 2 ^ 52 ≤ q ∧ q < 2 ^ 53 then { m := q, d := d }
    else float64OfDecimalAux D k (d + 1) fuel

/-- Go's compile-time conversion of the positive decimal literal `D / 10^k`
to float64: round to the nearest representable double, ties to even.
Modelled for literals whose value lies in the positive normal range (the
program's literal 99.87 does). -/
def float64OfDecimal (D k : Nat) : GoFloat64 := float64OfDecimalAux D k 0 1200

/-- Whether the decimal `D / 10^k` rounds (to nearest, ties to even) back to
the double `m / 2^d`: membership in the rounding interval of the double,
whose endpoints lie half an ulp away (a quarter ulp below at a binade
boundary) and are acceptable exactly when the significand is even. Scaling
by `2^(d+2) * 10^k` makes the test exact integer arithmetic. -/
def inShortestInterval (m d D k : Nat) : Bool :=
  let lo := (if m = 2 ^ 52 then 4 * m - 1 else 4 * m - 2) * 10 ^ k
  let hi := (4 * m + 2) * 10 ^ k
  let x := D * 2 ^ (d + 2)
  if m % 2 = 0 then decide (lo ≤ x) && decide (x ≤ hi)
  else decide (lo < x) && decide (x < hi)

/-- Scaled distance between the decimal `D / 10^k` and the double
`m / 2^d`. -/
def scaledDist (m d D k : Nat) : Nat :=
  Int.natAbs ((D * 2 ^ (d + 2) : Int) - 4 * m * 10 ^ k)

/-- Fuel-bounded search for the shortest decimal representation of the
double `m / 2^d`: the least number `k` of fractional digits admitting a
decimal `D / 10^k` that rounds back to the double, returning the candidate
closest to the value. This is the digit sequence Go's
`strconv.AppendFloat(_, f, 'f', -1, 64)` produces for doubles in the
fixed-notation range, which encoding/json selects for them. -/
def shortestDecimalAux (m d : Nat) : Nat → Nat → Nat × Nat
  | _, 0 => (0, 0)
  | k, fuel + 1 =>
    let D0 := m * 10 ^ k / 2 ^ d
    let D1 := D0 + 1
    let ok0 := inShortestInterval m d D0 k
    let ok1 := inShortestInterval m d D1 k
    if ok0 && ok1 then
      if scaledDist m d D0 k < scaledDist m d D1 k then (D0, k)
      else if scaledDist m d D1 k < scaledDist m d D0 k then (D1, k)
      else if D0 % 2 = 0 then (D0, k) else (D1, k)
    else if ok0 then (D0, k)
    else if ok1 then (D1, k)
    else shortestDecimalAux m d (k + 1) fuel

/-- The shortest uniquely-parsing decimal for the double `m / 2^d`, as a
pair (digits value, fractional-digit count). -/
def shortestDecimal (m d : Nat) : Nat × Nat := shortestDecimalAux m d 0 60

/-- Decimal digit bytes of a natural number (fuel-bounded helper). -/
def natDigitsAux : Nat → Nat → List Nat
  | 0, _ => []
  | fuel + 1, n => if n < 10 then [48 + n] else natDigitsAux fuel (n / 10) ++ [48 + n % 10]

/-- Decimal digit bytes of a natural number. -/
def natDigits (n : Nat) : List Nat := natDigitsAux (n + 1) n

/-- Go's integer formatting (`strconv` / encoding/json) for a signed
integer. -/
def intToAscii (i : Int) : List Nat :=
  if i < 0 then 45 :: natDigits i.natAbs else natDigits i.natAbs

/-- Left-pad a digit sequence with `0` bytes to length `k`. -/
def zeroPad (k : Nat) (ds : List Nat) : List Nat :=
  List.replicate (k - ds.length) 48 ++ ds

/-- Fixed-point rendering of the decimal `D / 10^k` ('f' format): the
integer digits, then a point and `k` fraction digits when `k > 0`. -/
def formatFixed (D k : Nat) : List Nat :=
  if k = 0 then natDigits D
  else natDigits (D / 10 ^ k) ++ [46] ++ zeroPad k (natDigits (D % 10 ^ k))

/-- encoding/json's rendering of a positive normal float64 in the
fixed-notation range (1e-6 ≤ value < 1e21, which holds for the program's
value 99.87): the shortest uniquely-parsing decimal in 'f' format. -/
def goFormatFloat64Shortest (f : GoFloat64) : List Nat :=
  formatFixed (shortestDecimal f.m f.d).1 (shortestDecimal f.m f.d).2

/-- A value stored in the `interface{}`-typed `Value` field of `MinorData`:
the program only ever stores a float64 there (99.87), strings kept for the
field's JSON-serializable string case. -/
inductive GoValue
  | vstring (s : String)
  | vfloat64 (f : GoFloat64)
  deriving Repr, DecidableEq

/-- `MinorData` (src/pkg/structDefine.go lines 8-13) with its json tags
`host`, `key`, `value`, `clock` in declaration order. -/
structure MinorData where
  Host : String
  Key : String
  Value : GoValue
  Clock : Int
  deriving Repr, DecidableEq

/-- `MajorData` (src/pkg/structDefine.go lines 3-6) with its json tags
`request`, `data` in declaration order. -/
structure MajorData where
  Request : String
  Data : List MinorData
  deriving Repr, DecidableEq

/-- encoding/json marshalling of the `interface{}` value. -/
def marshalGoValue : GoValue → List Nat
  | .vstring s => jsonString s
  | .vfloat64 f => goFormatFloat64Shortest f

/-- encoding/json marshalling of one `MinorData` record: an object with the
tag names `host`, `key`, `value`, `clock`, in struct declaration order. -/
def marshalMinorData (r : MinorData) : List Nat :=
  ascii "\x7b\"host\":" ++ jsonString r.Host ++ ascii ",\"key\":" ++ jsonString r.Key ++
    ascii ",\"value\":" ++ marshalGoValue r.Value ++ ascii ",\"clock\":" ++
    intToAscii r.Clock ++ ascii "\x7d"

/-- encoding/json marshalling of a `MajorData` batch: an object with the
tag names `request` and `data` (an array keeping record order). -/
def marshalMajorData (v : MajorData) : List Nat :=
  ascii "\x7b\"request\":" ++ jsonString v.Request ++ ascii ",\"data\":[" ++
    List.intercalate (ascii ",") (v.Data.map marshalMinorData) ++ ascii "]\x7d"

/-- The float64 value of the Go literal `99.87` (src/src/conf.go line 43). -/
def activeCheckValue : GoFloat64 := float64OfDecimal 9987 2

/-- The one-record batch `activeCheck` builds (src/src/conf.go lines
36-50). -/
def activeCheckData : MajorData :=
  { Request := "agent data",
    Data := [{ Host := "host_test",
               Key := "key_test[\"\x7b$URL\x7d\",\"github\",\"\x7b$HOST\x7d\",\"space_use\"]",
               Value := .vfloat64 activeCheckValue,
               Clock := 1566481943 }] }

/-- A concrete parsed configuration used by the concrete runs below. -/
def confA : tomlConfig :=
  { Server := { Ip := "127.0.0.1", Port := 10051, Version := "4.0" },
    Agent := { Port := 10050, LogLevel := "info", Logfile := "agent.log" } }

/-- Oracle for C1's counterexample: every external step succeeds and the
peer answers with the bare 5-byte magic. -/
def c1Oracle : NetOracle :=
  { parsedConf := some confA, dialOk := true, writeOk := true, readOk := true,
    response := ascii "ZBXD\x01" }

/-- Oracle for C2's failing input: the dial succeeds and the write fails. -/
def c2FailingOracle : NetOracle :=
  { parsedConf := some confA, dialOk := true, writeOk := false, readOk := true,
    response := [] }

/-- Oracle for C3's counterexample: a 13-byte all-zero response (valid
length, wrong magic). -/
def c3Oracle : NetOracle :=
  { parsedConf := some confA, dialOk := true, writeOk := true, readOk := true,
    response := List.replicate 13 0 }

/-- Oracle for C3's amended-claim witness: a 14-byte response of 7s. -/
def c3WitnessOracle : NetOracle :=
  { parsedConf := some confA, dialOk := true, writeOk := true, readOk := true,
    response := List.replicate 14 7 }

/-- Oracle for C7's counterexample: a 13-byte response of ASCII 'A's (valid
length, wrong magic). -/
def c7Oracle : NetOracle :=
  { parsedConf := some confA, dialOk := true, writeOk := true, readOk := true,
    response := List.replicate 13 65 }

/-- Oracle for C7's amended-claim witness: the peer closes the stream
without sending a single byte, so the accumulated response is empty. -/
def c7EmptyOracle : NetOracle :=
  { parsedConf := some confA, dialOk := true, writeOk := true, readOk := true,
    response := [] }

/-- Oracle with a failing configuration parse, for C8. -/
def c8FailOracle : NetOracle :=
  { parsedConf := none, dialOk := true, writeOk := true, readOk := true,
    response := [] }

/-- Oracle with a successful run, for C8's witness. -/
def c8OkOracle : NetOracle :=
  { parsedConf := some confA, dialOk := true, writeOk := true, readOk := true,
    response := zbxHeader ++ putUint64LE 2 ++ ascii "ok" }

/-- Oracle for C10's witness: the peer answers with a bare header (magic
plus an 8-byte length field and nothing else). -/
def c10Oracle : NetOracle :=
  { parsedConf := some confA, dialOk := true, writeOk := true, readOk := true,
    response := zbxHeader ++ putUint64LE 0 }

theorem zbxHeader_eq : zbxHeader = [90, 66, 88, 68, 1] := by decide

theorem zbxHeader_length : zbxHeader.length = 5 := by decide

theorem putUint64LE_length (v : Nat) : (putUint64LE v).length = 8 := by
  simp [putUint64LE]

theorem getUintLE_putUint64LE (v : Nat) :
    getUintLE (putUint64LE v) = v % 2 ^ 64 := by
  simp [putUint64LE, getUintLE, List.range_succ]
  omega

theorem dataSenderFrameTracked_eq (data : List Nat) :
    dataSenderFrameTracked data =
      ({ contents := zbxHeader ++ putUint64LE (toUint64 data.length) ++ data,
         cap := 13 + data.length }, false) := by
  simp only [dataSenderFrameTracked, goAppend, List.length_nil, List.nil_append,
    zbxHeader_length, putUint64LE_length, List.length_append]
  rw [if_pos (by omega : (5 : Nat) ≤ 13 + data.length)]
  simp only [zbxHeader_length]
  rw [if_pos (by omega : (5 : Nat) + 8 ≤ 13 + data.length)]
  simp only [List.length_append, zbxHeader_length, putUint64LE_length]
  rw [if_pos (by omega : (5 : Nat) + 8 + data.length ≤ 13 + data.length)]
  simp [List.append_assoc]

theorem dataSenderFrame_eq (data : List Nat) :
    dataSenderFrame data = zbxHeader ++ putUint64LE (toUint64 data.length) ++ data := by
  rw [dataSenderFrame, dataSenderFrameTracked_eq]

theorem bufFirst5_of_le_length (resp : List Nat) (h : 5 ≤ resp.length) :
    bufFirst5 resp = resp.take 5 := by
  simp [bufFirst5, List.take_append_of_le_length h]

theorem take5_of_frame (a b c : List Nat) (ha : a.length = 5) :
    (a ++ b ++ c).take 5 = a := by
  rw [List.append_assoc, List.take_append_of_le_length (by omega)]
  simp [List.take_of_length_le, ha]

theorem mid8_of_frame (a b c : List Nat) (ha : a.length = 5) (hb : b.length = 8) :
    ((a ++ b ++ c).drop 5).take 8 = b := by
  rw [show (5 : Nat) = a.length + 0 from by omega, List.append_assoc, List.drop_append]
  simp [List.take_append_of_le_length, hb]

theorem drop13_of_frame (a b c : List Nat) (ha : a.length = 5) (hb : b.length = 8) :
    (a ++ b ++ c).drop 13 = c := by
  rw [show (13 : Nat) = (a ++ b).length + 0 from by simp [ha, hb], List.drop_append]
  rfl

theorem dataSenderDecode_invalid_of_take5 (resp : List Nat) (h5 : 5 ≤ resp.length)
    (hmag : resp.take 5 ≠ zbxHeader) : dataSenderDecode resp = .invalidHeader := by
  simp [dataSenderDecode, bufFirst5_of_le_length resp h5, hmag]

theorem dataSenderDecode_ok_of (resp : List Nat) (hlen : 13 ≤ resp.length)
    (hmag : resp.take 5 = zbxHeader) : dataSenderDecode resp = .ok (resp.drop 13) := by
  simp [dataSenderDecode, bufFirst5_of_le_length resp (by omega), hmag,
    Nat.not_lt.mpr hlen]

/-- C1 counterexample: the 5-byte response "ZBXD\x01" is shorter than 13
bytes, yet the decode step does not return the invalid-header result; it
faults (slice bounds out of range) at `string(buf.Bytes())[13:]`, and the
whole DataSender run ends in a panic. -/
theorem c1_short_input_counterexample :
    c1Oracle.response.length < 13 ∧
    dataSenderDecode c1Oracle.response = .fault ∧
    dataSenderDecode c1Oracle.response ≠ .invalidHeader ∧
    (dataSenderRun [] c1Oracle).outcome = .panicked := by decide

/-- C1 as amended: for every response shorter than 13 bytes, the decode
step returns the invalid-header result when the first five bytes (the
accumulated bytes zero-extended from the buffer's spare capacity) differ
from "ZBXD\x01", and otherwise faults with an out-of-range slice access. -/
theorem c1_short_input_behavior (resp : List Nat) (h : resp.length < 13) :
    (bufFirst5 resp ≠ zbxHeader → dataSenderDecode resp = .invalidHeader) ∧
    (bufFirst5 resp = zbxHeader → dataSenderDecode resp = .fault) := by
  constructor
  · intro hm
    simp [dataSenderDecode, hm]
  · intro hm
    simp [dataSenderDecode, hm, h]

/-- C1 witness: the amended claim instantiated at the 3-byte response
[1, 2, 3], whose zero-extended first five bytes miss the magic. -/
theorem c1_short_input_behavior_witness :
    ([1, 2, 3] : List Nat).length < 13 ∧
    ((bufFirst5 [1, 2, 3] ≠ zbxHeader → dataSenderDecode [1, 2, 3] = .invalidHeader) ∧
     (bufFirst5 [1, 2, 3] = zbxHeader → dataSenderDecode [1, 2, 3] = .fault)) :=
  ⟨by decide, c1_short_input_behavior [1, 2, 3] (by decide)⟩

/-- C4: for every payload, the frame DataSender writes is exactly the
5-byte magic/version, then the payload length as 8 bytes little-endian,
then the payload verbatim; reading the 8 bytes at offset 5 as a
little-endian unsigned 64-bit integer gives back exactly the payload's
byte length. -/
theorem c4_frame_layout (data : List Nat) (h : data.length < 2 ^ 64) :
    dataSenderFrame data = ascii "ZBXD\x01" ++ putUint64LE data.length ++ data ∧
    (dataSenderFrame data).take 5 = ascii "ZBXD\x01" ∧
    getUintLE (((dataSenderFrame data).drop 5).take 8) = data.length ∧
    (dataSenderFrame data).drop 13 = data := by
  have hfr := dataSenderFrame_eq data
  have hmod : toUint64 data.length = data.length := Nat.mod_eq_of_lt h
  rw [hmod] at hfr
  refine ⟨hfr, ?_, ?_, ?_⟩
  · rw [hfr]
    exact take5_of_frame _ _ _ zbxHeader_length
  · rw [hfr, mid8_of_frame _ _ _ zbxHeader_length (putUint64LE_length _),
      getUintLE_putUint64LE]
    exact Nat.mod_eq_of_lt h
  · rw [hfr]
    exact drop13_of_frame _ _ _ zbxHeader_length (putUint64LE_length _)

/-- C4 witness: the frame layout at the concrete payload [7, 8, 9]. -/
theorem c4_frame_layout_witness :
    ([7, 8, 9] : List Nat).length < 2 ^ 64 ∧
    (dataSenderFrame [7, 8, 9] =
        ascii "ZBXD\x01" ++ putUint64LE ([7, 8, 9] : List Nat).length ++ [7, 8, 9] ∧
      (dataSenderFrame [7, 8, 9]).take 5 = ascii "ZBXD\x01" ∧
      getUintLE (((dataSenderFrame [7, 8, 9]).drop 5).take 8) =
        ([7, 8, 9] : List Nat).length ∧
      (dataSenderFrame [7, 8, 9]).drop 13 = [7, 8, 9]) :=
  ⟨by decide, c4_frame_layout [7, 8, 9] (by decide)⟩

/-- C5: on a response of at least 13 bytes beginning with the magic, the
decode step returns exactly the bytes from offset 13 on, and the declared
length field is never consulted: replacing the 8 length bytes by any other
8 bytes leaves the result unchanged. -/
theorem c5_payload_is_drop13 (resp lenField : List Nat) (hlen : 13 ≤ resp.length)
    (hmag : resp.take 5 = zbxHeader) (hLF : lenField.length = 8) :
    dataSenderDecode resp = .ok (resp.drop 13) ∧
    dataSenderDecode (resp.take 5 ++ lenField ++ resp.drop 13) = .ok (resp.drop 13) := by
  have htk : (resp.take 5).length = 5 := by
    simp [List.length_take]
    omega
  refine ⟨dataSenderDecode_ok_of resp hlen hmag, ?_⟩
  have hlen2 : (resp.take 5 ++ lenField ++ resp.drop 13).length = resp.length := by
    simp [List.length_append, htk, hLF, List.length_drop]
    omega
  have htake : (resp.take 5 ++ lenField ++ resp.drop 13).take 5 = zbxHeader := by
    rw [take5_of_frame _ _ _ htk]
    exact hmag
  have hdrop : (resp.take 5 ++ lenField ++ resp.drop 13).drop 13 = resp.drop 13 :=
    drop13_of_frame _ _ _ htk hLF
  have hres := dataSenderDecode_ok_of (resp.take 5 ++ lenField ++ resp.drop 13)
    (by rw [hlen2]; exact hlen) htake
  rw [hdrop] at hres
  exact hres

/-- C5 witness: a concrete 15-byte magic-led response, with the length
field swapped for eight zero bytes. -/
theorem c5_payload_is_drop13_witness :
    13 ≤ (zbxHeader ++ putUint64LE 2 ++ [65, 66]).length ∧
    (zbxHeader ++ putUint64LE 2 ++ [65, 66]).take 5 = zbxHeader ∧
    (List.replicate 8 0 : List Nat).length = 8 ∧
    (dataSenderDecode (zbxHeader ++ putUint64LE 2 ++ [65, 66]) =
        .ok ((zbxHeader ++ putUint64LE 2 ++ [65, 66]).drop 13) ∧
      dataSenderDecode ((zbxHeader ++ putUint64LE 2 ++ [65, 66]).take 5 ++
          List.replicate 8 0 ++ (zbxHeader ++ putUint64LE 2 ++ [65, 66]).drop 13) =
        .ok ((zbxHeader ++ putUint64LE 2 ++ [65, 66]).drop 13)) :=
  ⟨by decide, by decide, by decide,
    c5_payload_is_drop13 (zbxHeader ++ putUint64LE 2 ++ [65, 66])
      (List.replicate 8 0) (by decide) (by decide) (by decide)⟩

/-- C9: the frame has total length exactly 13 + len(data); no append
reallocates (the three appends exactly fill the buffer `make` allocated
fresh, whose capacity is 13 + len(data)), so frame construction writes only
into that fresh buffer and merely reads the input slice, which reappears
verbatim as the frame's suffix. -/
theorem c9_frame_length_input_only_read (data : List Nat) :
    (dataSenderFrame data).length = 13 + data.length ∧
    (dataSenderFrameTracked data).2 = false ∧
    (dataSenderFrameTracked data).1.cap = 13 + data.length ∧
    (dataSenderFrame data).drop 13 = data := by
  have h := dataSenderFrameTracked_eq data
  refine ⟨?_, by rw [h], by rw [h], ?_⟩
  · rw [dataSenderFrame, h]
    simp [zbxHeader_length, putUint64LE_length]
    omega
  · rw [dataSenderFrame, h]
    exact drop13_of_frame _ _ _ zbxHeader_length (putUint64LE_length _)

theorem dataSenderRun_read_path (data : List Nat) (o : NetOracle) (c : tomlConfig)
    (hc : o.parsedConf = some c) (hd : o.dialOk = true) (hw : o.writeOk = true)
    (hr : o.readOk = true) :
    dataSenderRun data o =
      { events := [.dialTcp (c.Server.Ip ++ ":" ++ toString c.Server.Port),
                   .connWrite (dataSenderFrame data), .connRead, .connClose],
        outcome :=
          match dataSenderDecode o.response with
          | .invalidHeader =>
            .ret { msg := ascii "zabbix server:Invalid data header", errNil := true }
          | .fault => .panicked
          | .ok payload => .ret { msg := payload, errNil := true } } := by
  cases hdec : dataSenderDecode o.response <;>
    simp [dataSenderRun, Config, hc, hd, hw, hr, hdec]

theorem dataSenderRun_read_error (data : List Nat) (o : NetOracle) (c : tomlConfig)
    (hc : o.parsedConf = some c) (hd : o.dialOk = true) (hw : o.writeOk = true)
    (hr : o.readOk = false) :
    dataSenderRun data o =
      { events := [.dialTcp (c.Server.Ip ++ ":" ++ toString c.Server.Port),
                   .connWrite (dataSenderFrame data), .connRead, .connClose],
        outcome := .ret { msg := ascii "error data", errNil := false } } := by
  simp [dataSenderRun, Config, hc, hd, hw, hr]

/-- C2: with the dial succeeding and the write failing, DataSender performs
a dial and a write but never a close: the deferred close (line 37) is
installed only after the write-error return at line 35, so the write-failure
path returns with the connection still open, against the claim that every
post-dial path closes it exactly once. -/
theorem c2_write_failure_never_closes :
    c2FailingOracle.dialOk = true ∧
    (dataSenderRun (ascii "x") c2FailingOracle).events.count .connClose = 0 ∧
    (dataSenderRun (ascii "x") c2FailingOracle).events =
      [.dialTcp (confA.Server.Ip ++ ":" ++ toString confA.Server.Port),
       .connWrite (dataSenderFrame (ascii "x"))] := by decide

/-- C3 counterexample: a 13-byte all-zero response (valid length, wrong
magic) makes DataSender return the invalid-header message string, but the
error component of the result is nil: line 51 returns the `err` left nil by
the successful `io.Copy`, so the claim that the error component is non-nil
fails. -/
theorem c3_error_nil_counterexample :
    13 ≤ c3Oracle.response.length ∧
    c3Oracle.response.take 5 ≠ zbxHeader ∧
    (dataSenderRun [] c3Oracle).outcome =
      .ret { msg := ascii "zabbix server:Invalid data header", errNil := true } := by decide

/-- C3 as amended: on every response of at least 13 bytes whose first five
bytes differ from the magic, DataSender fails with the invalid-header
condition identified by the **string** component of its result, while the
error component is nil. -/
theorem c3_invalid_magic_result (data : List Nat) (o : NetOracle) (c : tomlConfig)
    (hc : o.parsedConf = some c) (hd : o.dialOk = true) (hw : o.writeOk = true)
    (hr : o.readOk = true) (hlen : 13 ≤ o.response.length)
    (hmag : o.response.take 5 ≠ zbxHeader) :
    (dataSenderRun data o).outcome =
      .ret { msg := ascii "zabbix server:Invalid data header", errNil := true } := by
  rw [dataSenderRun_read_path data o c hc hd hw hr]
  simp [dataSenderDecode_invalid_of_take5 o.response (by omega) hmag]

/-- C3 witness: the amended claim at a concrete 14-byte response of 7s. -/
theorem c3_invalid_magic_result_witness :
    (dataSenderRun [] c3WitnessOracle).outcome =
      .ret { msg := ascii "zabbix server:Invalid data header", errNil := true } :=
  c3_invalid_magic_result [] c3WitnessOracle confA rfl rfl rfl rfl
    (by decide) (by decide)

/-- C7 counterexample: a run that reaches the read step and fails envelope
validation returns the fixed message "zabbix server:Invalid data header" as
the first component, not the accumulated 13-byte response. -/
theorem c7_substitute_message_counterexample :
    (dataSenderRun [] c7Oracle).outcome =
      .ret { msg := ascii "zabbix server:Invalid data header", errNil := true } ∧
    ascii "zabbix server:Invalid data header" ≠ c7Oracle.response := by decide

/-- C7 as amended: on the paths that reach the read step, the first
component of DataSender's result is a fixed diagnostic message on failure —
"error data" when the read errors, "zabbix server:Invalid data header" when
validation fails (the zero-extended first five bytes miss the magic, the
condition line 49 actually tests, defined for every response length
including the empty response) — and the accumulated response appears in the
result only on success, and then only from offset 13 on. -/
theorem c7_read_path_results (data : List Nat) (o : NetOracle) (c : tomlConfig)
    (hc : o.parsedConf = some c) (hd : o.dialOk = true) (hw : o.writeOk = true) :
    (o.readOk = false →
      (dataSenderRun data o).outcome = .ret { msg := ascii "error data", errNil := false }) ∧
    (o.readOk = true → bufFirst5 o.response ≠ zbxHeader →
      (dataSenderRun data o).outcome =
        .ret { msg := ascii "zabbix server:Invalid data header", errNil := true }) ∧
    (o.readOk = true → 13 ≤ o.response.length → o.response.take 5 = zbxHeader →
      (dataSenderRun data o).outcome = .ret { msg := o.response.drop 13, errNil := true }) := by
  refine ⟨?_, ?_, ?_⟩
  · intro hr
    rw [dataSenderRun_read_error data o c hc hd hw hr]
  · intro hr hmag
    rw [dataSenderRun_read_path data o c hc hd hw hr]
    have hdec : dataSenderDecode o.response = .invalidHeader := by
      simp [dataSenderDecode, hmag]
    simp [hdec]
  · intro hr hlen hmag
    rw [dataSenderRun_read_path data o c hc hd hw hr]
    simp [dataSenderDecode_ok_of o.response hlen hmag]

/-- C7 witness: the amended claim applied at the 13-byte all-'A'
validation-failure oracle and at the empty-response oracle, both of which
get the fixed invalid-header message. -/
theorem c7_read_path_results_witness :
    (dataSenderRun [] c7Oracle).outcome =
      .ret { msg := ascii "zabbix server:Invalid data header", errNil := true } ∧
    (dataSenderRun [] c7EmptyOracle).outcome =
      .ret { msg := ascii "zabbix server:Invalid data header", errNil := true } :=
  ⟨(c7_read_path_results [] c7Oracle confA rfl rfl rfl).2.1 rfl (by decide),
   (c7_read_path_results [] c7EmptyOracle confA rfl rfl rfl).2.1 rfl (by decide)⟩

/-- C8: a configuration read/parse failure panics inside `Config` before
any network action (the run has no events), and when the configuration
parses, DataSender forms the server address from it and dials it as its
first network action, dialing exactly once — no retry and no fallback. -/
theorem c8_config_fatal_before_network (data : List Nat) (o : NetOracle) :
    (o.parsedConf = none → dataSenderRun data o = { events := [], outcome := .panicked }) ∧
    (∀ c : tomlConfig, o.parsedConf = some c →
      (dataSenderRun data o).events.head? =
        some (.dialTcp (c.Server.Ip ++ ":" ++ toString c.Server.Port)) ∧
      (dataSenderRun data o).events.countP (fun e => isDialEvent e) = 1) := by
  constructor
  · intro h
    simp [dataSenderRun, Config, h]
  · intro c hc
    by_cases hd : o.dialOk = false
    · simp [dataSenderRun, Config, hc, hd, isDialEvent]
    · rw [Bool.not_eq_false] at hd
      by_cases hw : o.writeOk = false
      · simp [dataSenderRun, Config, hc, hd, hw, isDialEvent]
      · rw [Bool.not_eq_false] at hw
        by_cases hr : o.readOk = false
        · rw [dataSenderRun_read_error data o c hc hd hw hr]
          simp [isDialEvent]
        · rw [Bool.not_eq_false] at hr
          rw [dataSenderRun_read_path data o c hc hd hw hr]
          cases dataSenderDecode o.response <;> simp [isDialEvent]

/-- C8 witness: the two cases at concrete oracles — a failing parse yields
the empty-event panicked run; a successful parse dials the configured
address first and exactly once. -/
theorem c8_config_fatal_before_network_witness :
    dataSenderRun [] c8FailOracle = { events := [], outcome := .panicked } ∧
    (dataSenderRun [] c8OkOracle).events.head? =
      some (.dialTcp (confA.Server.Ip ++ ":" ++ toString confA.Server.Port)) ∧
    (dataSenderRun [] c8OkOracle).events.countP (fun e => isDialEvent e) = 1 :=
  ⟨(c8_config_fatal_before_network [] c8FailOracle).1 rfl,
   ((c8_config_fatal_before_network [] c8OkOracle).2 confA rfl).1,
   ((c8_config_fatal_before_network [] c8OkOracle).2 confA rfl).2⟩

/-- C10: a response consisting of exactly the 5-byte magic and any 8-byte
length field (13 bytes total) is accepted: DataSender returns the empty
string with a nil error — an empty payload is not a failure. -/
theorem c10_bare_header_empty_payload (data : List Nat) (o : NetOracle) (c : tomlConfig)
    (lenField : List Nat) (hc : o.parsedConf = some c) (hd : o.dialOk = true)
    (hw : o.writeOk = true) (hr : o.readOk = true) (hLF : lenField.length = 8)
    (hresp : o.response = zbxHeader ++ lenField) :
    (dataSenderRun data o).outcome = .ret { msg := [], errNil := true } := by
  have hlen : o.response.length = 13 := by
    simp [hresp, zbxHeader_length, hLF]
  have htake : o.response.take 5 = zbxHeader := by
    rw [hresp, List.take_append_of_le_length (by simp [zbxHeader_length])]
    exact List.take_of_length_le (by simp [zbxHeader_length])
  have hdec : dataSenderDecode o.response = .ok [] := by
    rw [dataSenderDecode_ok_of o.response (by omega) htake]
    simp [List.drop_eq_nil_of_le, hlen]
  rw [dataSenderRun_read_path data o c hc hd hw hr]
  simp [hdec]

/-- C10 witness: the bare-header response with an all-zero length field. -/
theorem c10_bare_header_empty_payload_witness :
    (dataSenderRun [] c10Oracle).outcome = .ret { msg := [], errNil := true } :=
  c10_bare_header_empty_payload [] c10Oracle confA (putUint64LE 0) rfl rfl rfl rfl
    (putUint64LE_length 0) rfl

set_option maxRecDepth 4000 in
/-- C6: marshalling the batch `activeCheck` builds — request tag
"agent data" and the single record (host_test, the bracketed key, 99.87,
1566481943) — produces exactly the expected JSON byte string, with the
field names `request`, `data`, `host`, `key`, `value`, `clock` in struct
declaration order. -/
theorem c6_activeCheck_serialization :
    marshalMajorData activeCheckData =
      ascii "\x7b\"request\":\"agent data\",\"data\":[\x7b\"host\":\"host_test\",\"key\":\"key_test[\\\"\x7b$URL\x7d\\\",\\\"github\\\",\\\"\x7b$HOST\x7d\\\",\\\"space_use\\\"]\",\"value\":99.87,\"clock\":1566481943\x7d]\x7d" := by
  decide
